import Mathlib

/-! Shallow embedding of the clarity-gated gender-classification pipeline of
ladoai/Callg-gender-detecation (src/gender_predictor.py and src/main.py).

Numeric values that the Python code keeps in IEEE doubles are idealised as
exact rationals; the one inherently irrational quantity, the decibel SNR
produced by np.log10, is kept as a real number, together with an explicit
negative-infinity marker mirroring Python's float('-inf').  The external
collaborators (librosa.load, librosa.pyin, librosa.feature.rms) are modelled
as an environment record whose components give the outcome of each external
call for the one audio file under analysis; an Except.error outcome stands
for the call raising an exception. -/

open Classical

/-- Embedding of class AudioAnalyzerConfig (src/gender_predictor.py lines
9-20): the configuration parameters of the analysis, one field per
attribute assigned in its constructor. -/
structure AudioAnalyzerConfig where
  pitch_fmin_hz : ℚ
  pitch_fmax_hz : ℚ
  frame_length_ms : ℚ
  hop_length_ms : ℚ
  noise_estimation_duration_s : ℚ
  signal_energy_percentile : ℚ
  min_snr_threshold_db : ℚ
  min_total_energy_threshold : ℚ
  gender_female_pitch_threshold : ℚ

/-- The default configuration values of AudioAnalyzerConfig.__init__.
librosa.note_to_hz gives the equal-temperament frequencies of C3 and C6,
irrational numbers quoted in the source comments as 130.81 Hz and 1046.50 Hz;
they only parameterise the external pitch estimator and never enter the
pipeline's own arithmetic, so the quoted decimal values are used here. -/
def defaultConfig : AudioAnalyzerConfig where
  pitch_fmin_hz := 13081 / 100
  pitch_fmax_hz := 104650 / 100
  frame_length_ms := 20
  hop_length_ms := 10
  noise_estimation_duration_s := 1 / 2
  signal_energy_percentile := 90
  min_snr_threshold_db := 7
  min_total_energy_threshold := 1 / 2000
  gender_female_pitch_threshold := 165

/-- Python's int() applied to a (here: rational) number: truncation toward
zero. -/
def qtrunc (x : ℚ) : ℤ := if 0 ≤ x then ⌊x⌋ else ⌈x⌉

/-- Python's list slice l[:n] for an arbitrary integer n: a nonnegative n
takes the first n elements (clamped to the length), a negative n drops the
last -n elements. -/
def pySliceTo {α : Type} (l : List α) (n : ℤ) : List α :=
  if 0 ≤ n then l.take n.toNat else l.take (l.length - (-n).toNat)

/-- np.mean of a nonempty sequence: arithmetic mean.  (The code only applies
it to nonempty sequences.) -/
def qmean (l : List ℚ) : ℚ := l.sum / (l.length : ℚ)

/-- Insertion step of the ascending sort used by the percentile computation. -/
def insertQ (x : ℚ) : List ℚ → List ℚ
  | [] => [x]
  | y :: ys => if x ≤ y then x :: y :: ys else y :: insertQ x ys

/-- Ascending insertion sort of a rational list (the sort underlying
np.percentile). -/
def sortQ : List ℚ → List ℚ
  | [] => []
  | x :: xs => insertQ x (sortQ xs)

/-- np.percentile with its default linear interpolation, on a nonempty list:
the virtual rank is (n-1)*q/100 and the result interpolates linearly between
the two neighbouring order statistics. -/
def percentileQ (l : List ℚ) (q : ℚ) : ℚ :=
  let s := sortQ l
  let h : ℚ := ((s.length : ℚ) - 1) * q / 100
  let i : ℕ := (⌊h⌋).toNat
  let lo := s.getD i 0
  let hi := s.getD (i + 1) lo
  lo + (h - (i : ℚ)) * (hi - lo)

/-- Line 93 of src/gender_predictor.py: the number of RMS frames assumed to
be background noise, int(noise_estimation_duration_s * sr / hop_length). -/
def noiseFramesCount (cfg : AudioAnalyzerConfig) (sr : ℕ) (hop_length : ℤ) : ℤ :=
  qtrunc (cfg.noise_estimation_duration_s * (sr : ℚ) / (hop_length : ℚ))

/-- Lines 94-99 of src/gender_predictor.py: the noise-floor energy.  The
window rms_energy[:noise_frames_count] is averaged when nonempty; otherwise
the minimum strictly positive frame energy np.min(rms_energy[rms_energy > 0])
is used when some frame energy is positive, and 1e-6 when none is. -/
def noiseEnergyOf (rms : List ℚ) (n : ℤ) : ℚ :=
  match pySliceTo rms n with
  | w@(_ :: _) => qmean w
  | [] =>
    match rms.filter (fun x => decide (0 < x)) with
    | [] => 1 / 1000000
    | h :: t => t.foldl min h

/-- Line 106 of src/gender_predictor.py: the decibel SNR
10 * log10((signal_energy + 1e-9) / (noise_energy + 1e-9)).  This is the one
irrational quantity of the pipeline, hence valued in ℝ. -/
noncomputable def snrDbVal (signal_energy noise_energy : ℚ) : ℝ :=
  10 * Real.logb 10
    (((signal_energy + 1 / 1000000000 : ℚ) : ℝ) / ((noise_energy + 1 / 1000000000 : ℚ) : ℝ))

/-- A Python float as it can appear in the snr_db variable: either
float('-inf') (assigned on the degenerate and exception paths) or a finite
real value. -/
inductive PyFloat where
  | negInf
  | fin (x : ℝ)

/-- The Python comparison snr_db < threshold on such a value: float('-inf')
is below every threshold. -/
def PyFloat.ltQ : PyFloat → ℚ → Prop
  | .negInf, _ => True
  | .fin x, t => x < (t : ℝ)

/-- One entry of the reasons list built in lines 118-129 of
src/gender_predictor.py, tagged with the numeric value the source would
interpolate into the message. -/
inductive ClarityReason where
  | highBackgroundNoise (snr_db : PyFloat)
  | tooLowVolume (total_energy : ℚ)
  | noClearSpeechPitch

/-- The descriptive text of each reason.  The source suffixes the first two
with the formatted numeric value, "(SNR: {snr_db:.2f} dB)" and
"(Avg RMS: {total_energy:.4f})"; that float-formatting is not modelled (the
value itself is carried in the ClarityReason payload) since no control flow
and no claim depends on the rendered digits. -/
def reasonText : ClarityReason → String
  | .highBackgroundNoise _ => "High background noise"
  | .tooLowVolume _ => "Too low volume or silence"
  | .noClearSpeechPitch => "No clear speech pitch detected"

/-- Lines 118-129 of src/gender_predictor.py: the ordered reasons list.
First the SNR test appends, then the energy test appends, and the zero-pitch
test appends only when the list built so far is still empty (Python's
`if avg_pitch == 0.0 and not reasons`). -/
noncomputable def clarityReasons (snr_db : PyFloat) (total_energy avg_pitch : ℚ)
    (cfg : AudioAnalyzerConfig) : List ClarityReason :=
  let r1 : List ClarityReason :=
    if snr_db.ltQ cfg.min_snr_threshold_db then [ClarityReason.highBackgroundNoise snr_db] else []
  let r2 : List ClarityReason :=
    if total_energy < cfg.min_total_energy_threshold then r1 ++ [ClarityReason.tooLowVolume total_energy] else r1
  if avg_pitch = 0 ∧ r2 = [] then r2 ++ [ClarityReason.noClearSpeechPitch] else r2

/-- Lines 117 and 131-132 of src/gender_predictor.py: the clarity message is
"voice clear" when no reason accumulated, and otherwise the reasons joined
with ", " behind the prefix "Voice not clear: ". -/
def clarityMessageOf : List ClarityReason → String
  | [] => "voice clear"
  | rs@(_ :: _) => "Voice not clear: " ++ String.intercalate ", " (rs.map reasonText)

/-- Lines 60 of src/gender_predictor.py: pitch[~np.isnan(pitch) & voiced_flag],
the per-frame pitch estimates that are not NaN (modelled as Option.none) and
whose frame is voiced. -/
def validPitchList (pitch : List (Option ℚ)) (voiced : List Bool) : List ℚ :=
  (pitch.zip voiced).filterMap fun pv =>
    match pv with
    | (some x, true) => some x
    | _ => none

/-- Lines 46-70 of src/gender_predictor.py: the average pitch.  The argument
is the outcome of the external librosa.pyin call; an exception there (the
except branch, line 68-70) and an empty valid-pitch selection (line 62-64)
both give 0.0, otherwise the mean of the valid pitches is taken. -/
def avgPitchOf : Except Unit (List (Option ℚ) × List Bool) → ℚ
  | .error _ => 0
  | .ok pv =>
    match validPitchList pv.1 pv.2 with
    | [] => 0
    | l@(_ :: _) => qmean l

/-- The contract of the external pitch estimator (spec section 6): every
pitch estimate it reports lies in the positive search band, in particular is
strictly positive.  (Trivial on the exception outcome.) -/
def pyinPositive : Except Unit (List (Option ℚ) × List Bool) → Prop
  | .error _ => True
  | .ok pv => ∀ x : ℚ, some x ∈ pv.1 → 0 < x

/-- Outcome of the librosa.load call in lines 34-44 of
src/gender_predictor.py: FileNotFoundError, any other exception (with its
message text), or a loaded signal of which the pipeline proper only consumes
the sample count and the sample rate. -/
inductive LoadOutcome where
  | fileNotFound
  | decodeFailed (emsg : String)
  | loaded (ysize : ℕ) (sr : ℕ)

/-- The external world of one pipeline invocation: the outcome of
librosa.load, of librosa.pyin, and of librosa.feature.rms (the latter as a
function of the frame length and hop length it is called with; Except.error
models the call raising). -/
structure AudioEnv where
  load : LoadOutcome
  pyin : Except Unit (List (Option ℚ) × List Bool)
  rms : ℤ → ℤ → Except Unit (List ℚ)

/-- Lines 75-81 of src/gender_predictor.py: frame and hop length in samples,
int(frame_length_ms / 1000 * sr) and int(hop_length_ms / 1000 * sr), replaced
by the fixed fallback (2048, 512) when either computes to zero. -/
def framingParams (cfg : AudioAnalyzerConfig) (sr : ℕ) : ℤ × ℤ :=
  let fl := qtrunc (cfg.frame_length_ms / 1000 * (sr : ℚ))
  let hl := qtrunc (cfg.hop_length_ms / 1000 * (sr : ℚ))
  if fl = 0 ∨ hl = 0 then (2048, 512) else (fl, hl)

/-- Lines 83-114 of src/gender_predictor.py: the (snr_db, total_energy) pair.
An exception from librosa.feature.rms or from the numpy computation after it
(modelled: the rms outcome is an error, or np.percentile rejects a percentile
outside [0, 100]) and an empty RMS sequence both give
(float('-inf'), 0.0); otherwise the SNR is computed from the percentile
signal floor and the noise floor, and the total energy is the mean RMS. -/
noncomputable def snrStage (rmsResult : Except Unit (List ℚ)) (sr : ℕ) (hop_length : ℤ)
    (cfg : AudioAnalyzerConfig) : PyFloat × ℚ :=
  match rmsResult with
  | .error _ => (PyFloat.negInf, 0)
  | .ok rms =>
    if rms = [] then (PyFloat.negInf, 0)
    else if cfg.signal_energy_percentile < 0 ∨ 100 < cfg.signal_energy_percentile then
      (PyFloat.negInf, 0)
    else
      (PyFloat.fin (snrDbVal (percentileQ rms cfg.signal_energy_percentile)
          (noiseEnergyOf rms (noiseFramesCount cfg sr hop_length))),
        qmean rms)

/-- The (snr_db, total_energy) pair produced for a loaded signal: the framing
parameters are computed from the configuration and sample rate, the external
RMS call is made with them, and the SNR stage consumes its outcome. -/
noncomputable def snrOut (env : AudioEnv) (cfg : AudioAnalyzerConfig) (sr : ℕ) : PyFloat × ℚ :=
  snrStage (env.rms (framingParams cfg sr).1 (framingParams cfg sr).2) sr
    (framingParams cfg sr).2 cfg

/-- The quadruple returned by extract_features_with_clarity:
(avg_pitch, clarity_message, snr_db, total_energy), with None components on
the load-failure returns. -/
structure ExtractResult where
  avg_pitch : Option ℚ
  clarity_message : String
  snr_db : Option PyFloat
  total_energy : Option ℚ

/-- Lines 46-134 of src/gender_predictor.py for a successfully loaded,
nonempty signal: pitch extraction, SNR and energy evaluation, clarity
classification, and the result quadruple. -/
noncomputable def extractLoaded (env : AudioEnv) (cfg : AudioAnalyzerConfig) (sr : ℕ) :
    ExtractResult :=
  ⟨some (avgPitchOf env.pyin),
    clarityMessageOf (clarityReasons (snrOut env cfg sr).1 (snrOut env cfg sr).2
      (avgPitchOf env.pyin) cfg),
    some (snrOut env cfg sr).1,
    some (snrOut env cfg sr).2⟩

/-- Embedding of extract_features_with_clarity (src/gender_predictor.py lines
22-134): the load failure returns of lines 36-44 produce the
(None, message, None, None) quadruples, and a loaded nonempty signal runs the
full pipeline. -/
noncomputable def extract_features_with_clarity (env : AudioEnv) (cfg : AudioAnalyzerConfig) :
    ExtractResult :=
  match env.load with
  | .fileNotFound => ⟨none, "Error: Audio file not found.", none, none⟩
  | .decodeFailed e => ⟨none, "Error loading audio file: " ++ e, none, none⟩
  | .loaded ysize sr =>
    if ysize = 0 then ⟨none, "Error: Audio file is empty or too short.", none, none⟩
    else extractLoaded env cfg sr

/-- Lines 149-170 of src/gender_predictor.py after the feature extraction:
the branching of predict_gender_with_clarity_check on the extracted
quadruple. -/
def classifyStep (cfg : AudioAnalyzerConfig) (r : ExtractResult) : String × Option ℚ :=
  match r.avg_pitch with
  | none => (r.clarity_message, none)
  | some p =>
    if r.clarity_message ≠ "voice clear" then (r.clarity_message, none)
    else if p = 0 then ("Cannot determine gender: No clear pitch detected", none)
    else if cfg.gender_female_pitch_threshold < p then ("Female", some p)
    else ("Male", some p)

/-- Embedding of predict_gender_with_clarity_check (src/gender_predictor.py
lines 136-170). -/
noncomputable def predict_gender_with_clarity_check (env : AudioEnv)
    (cfg : AudioAnalyzerConfig) : String × Option ℚ :=
  classifyStep cfg (extract_features_with_clarity env cfg)

/-- Modelled from the spec: src/main.py imports predict_gender from
gender_predictor, but src/gender_predictor.py does not define a function of
that name (only predict_gender_with_clarity_check).  Per spec sections 3,
4.6 and 7 the missing orchestrator entry point produces exactly one typed
ClassificationResult per request - Gender(label, average_pitch_hz),
Inconclusive(message) or LoadError(message) - and never raises. -/
inductive ClassificationResult where
  | gender (label : String) (average_pitch_hz : ℚ)
  | inconclusive (message : String)
  | loadError (message : String)

/-- The external world of one request handled by src/main.py's predict:
the audio_url field of the request JSON (none when absent), the outcome of
the download-and-write steps before the pipeline call, the outcome of the
os.remove cleanup after it, and the pipeline's result (which, per the spec,
is a value and not an exception). -/
structure ApiEnv where
  audio_url : Option String
  fetch : Except String Unit
  cleanup : Except String Unit
  pipeline_result : ClassificationResult

/-- The JSON body produced by src/main.py: either a single "gender" field
holding whatever the pipeline call returned, or a single "error" field
holding a message. -/
inductive ApiBody where
  | genderField (value : ClassificationResult)
  | errorField (message : String)

/-- Embedding of the request handler predict (src/main.py lines 8-28) as a
function to (HTTP status, body): a missing or empty (falsy) audio_url gives
400 with an error body; an exception in the try block gives 500 with the
exception text; otherwise the pipeline result is returned under the "gender"
key with status 200, whatever constructor it is. -/
def predict (env : ApiEnv) : ℕ × ApiBody :=
  match env.audio_url with
  | none => (400, ApiBody.errorField "Audio URL missing")
  | some u =>
    if u = "" then (400, ApiBody.errorField "Audio URL missing")
    else
      match env.fetch with
      | .error e => (500, ApiBody.errorField e)
      | .ok _ =>
        match env.cleanup with
        | .error e => (500, ApiBody.errorField e)
        | .ok _ => (200, ApiBody.genderField env.pipeline_result)

/-- A concrete environment on which the pipeline passes the clarity check:
a one-sample signal descriptor at 50 Hz sample rate (so the computed hop
length truncates to zero and the fixed fallback 2048/512 applies, and the
noise window holds zero frames), a pitch estimate of 200 Hz on one voiced
frame, and two RMS frames chosen so that the signal-to-noise ratio is
exactly 10, i.e. the SNR is exactly 10 dB. -/
def envClear : AudioEnv where
  load := LoadOutcome.loaded 1 50
  pyin := Except.ok ([some 200], [true])
  rms := fun _ _ => Except.ok [1 / 1000, 1100001 / 100000000]

/-- A concrete environment whose RMS call raises, so the SNR degenerates to
float('-inf'), the clarity check fails, and the pitch (200 Hz, positive and
well defined) is never classified. -/
def envUnclear : AudioEnv where
  load := LoadOutcome.loaded 1 1000
  pyin := Except.ok ([some 200], [true])
  rms := fun _ _ => Except.error ()

/-- A concrete environment whose RMS call returns an empty frame-energy
sequence. -/
def envEmptyRms : AudioEnv where
  load := LoadOutcome.loaded 1 1000
  pyin := Except.ok ([], [])
  rms := fun _ _ => Except.ok []

/-- A concrete environment in which both the pitch-extraction stage and the
SNR/energy stage raise. -/
def envBothFail : AudioEnv where
  load := LoadOutcome.loaded 1 1000
  pyin := Except.error ()
  rms := fun _ _ => Except.error ()

/-- A concrete request environment whose pipeline result is Inconclusive. -/
def envApiInconclusive : ApiEnv where
  audio_url := some "https://example.com/a.wav"
  fetch := Except.ok ()
  cleanup := Except.ok ()
  pipeline_result := ClassificationResult.inconclusive "Voice not clear: High background noise"

/-- A concrete request environment with no audio_url in the request body. -/
def envApiMissing : ApiEnv where
  audio_url := none
  fetch := Except.ok ()
  cleanup := Except.ok ()
  pipeline_result := ClassificationResult.gender "Male" 120

/-! Helper lemmas about strings and the clarity stage. -/

lemma string_data_append (a b : String) : (a ++ b).data = a.data ++ b.data := by
  cases a
  cases b
  rfl

lemma head_voice_not_clear (m : String) :
    ("Voice not clear: " ++ m).data.head? = some 'V' := by
  rw [string_data_append]
  rfl

lemma head_err_loading (m : String) :
    ("Error loading audio file: " ++ m).data.head? = some 'E' := by
  rw [string_data_append]
  rfl

lemma vnc_ne (m t : String) (ht : t.data.head? ≠ some 'V') :
    "Voice not clear: " ++ m ≠ t :=
  fun he => ht (he ▸ head_voice_not_clear m)

lemma err_loading_ne (m t : String) (ht : t.data.head? ≠ some 'E') :
    "Error loading audio file: " ++ m ≠ t :=
  fun he => ht (he ▸ head_err_loading m)

lemma clarityReasons_split (s : PyFloat) (e p : ℚ) (cfg : AudioAnalyzerConfig) :
    clarityReasons s e p cfg =
      (if s.ltQ cfg.min_snr_threshold_db then [ClarityReason.highBackgroundNoise s] else [])
        ++ (if e < cfg.min_total_energy_threshold then [ClarityReason.tooLowVolume e] else [])
        ++ (if p = 0 ∧ ¬ s.ltQ cfg.min_snr_threshold_db ∧ ¬ e < cfg.min_total_energy_threshold
            then [ClarityReason.noClearSpeechPitch] else []) := by
  unfold clarityReasons
  by_cases h1 : s.ltQ cfg.min_snr_threshold_db <;>
    by_cases h2 : e < cfg.min_total_energy_threshold <;>
      by_cases h3 : p = 0 <;>
        simp [h1, h2, h3]

lemma clarityReasons_eq_nil_iff (s : PyFloat) (e p : ℚ) (cfg : AudioAnalyzerConfig) :
    clarityReasons s e p cfg = [] ↔
      ¬ s.ltQ cfg.min_snr_threshold_db ∧ ¬ e < cfg.min_total_energy_threshold ∧ p ≠ 0 := by
  rw [clarityReasons_split]
  by_cases h1 : s.ltQ cfg.min_snr_threshold_db <;>
    by_cases h2 : e < cfg.min_total_energy_threshold <;>
      by_cases h3 : p = 0 <;>
        simp [h1, h2, h3]

lemma clarityMessageOf_eq_voice_clear (rs : List ClarityReason) :
    clarityMessageOf rs = "voice clear" ↔ rs = [] := by
  cases rs with
  | nil => simp [clarityMessageOf]
  | cons a l =>
    simp only [clarityMessageOf]
    constructor
    · intro h
      exact absurd h (vnc_ne _ _ (by decide))
    · intro h
      exact absurd h (List.cons_ne_nil a l)

/-- Claim C2: the clarity classifier appends the high-background-noise reason
iff SNR is below min_snr_threshold_db, appends the low-volume reason iff the
mean energy is below min_total_energy_threshold (independently, in that
order), appends the no-clear-speech-pitch reason iff the average pitch is
exactly 0.0 and neither of the first two reasons fired, and the verdict is
clear iff the reason list is empty, otherwise the message carries the
reasons in order joined by ", ". -/
theorem clarity_classifier_spec (s : PyFloat) (e p : ℚ) (cfg : AudioAnalyzerConfig) :
    clarityReasons s e p cfg =
        (if s.ltQ cfg.min_snr_threshold_db then [ClarityReason.highBackgroundNoise s] else [])
          ++ (if e < cfg.min_total_energy_threshold then [ClarityReason.tooLowVolume e] else [])
          ++ (if p = 0 ∧ ¬ s.ltQ cfg.min_snr_threshold_db ∧ ¬ e < cfg.min_total_energy_threshold
              then [ClarityReason.noClearSpeechPitch] else [])
      ∧ (clarityMessageOf (clarityReasons s e p cfg) = "voice clear" ↔
          clarityReasons s e p cfg = [])
      ∧ ∀ rs : List ClarityReason, rs ≠ [] →
          clarityMessageOf rs = "Voice not clear: " ++ String.intercalate ", " (rs.map reasonText) :=
  ⟨clarityReasons_split s e p cfg, clarityMessageOf_eq_voice_clear _, by
    intro rs h
    cases rs with
    | nil => exact absurd rfl h
    | cons a l => rfl⟩

/-- Witness for claim C2's theorem at concrete inputs: SNR of negative
infinity, zero energy and a pitch of 5 Hz fire the first two reasons but not
the third, and the message joins them with ", ". -/
theorem clarity_classifier_spec_witness :
    clarityReasons PyFloat.negInf 0 5 defaultConfig =
        [ClarityReason.highBackgroundNoise PyFloat.negInf, ClarityReason.tooLowVolume 0]
      ∧ clarityMessageOf
          [ClarityReason.highBackgroundNoise PyFloat.negInf, ClarityReason.tooLowVolume 0] =
        "Voice not clear: High background noise, Too low volume or silence" := by
  have h := clarity_classifier_spec PyFloat.negInf 0 5 defaultConfig
  refine ⟨?_, ?_⟩
  · rw [h.1, if_pos (show PyFloat.negInf.ltQ defaultConfig.min_snr_threshold_db from trivial),
      if_pos (by norm_num [defaultConfig]), if_neg (by norm_num)]
    rfl
  · rw [h.2.2 _ (by simp)]
    rfl

/-- Claim C8: for every sample rate (and configuration), if either the frame
length or the hop length computed from the millisecond configuration
truncates to zero samples, the fixed fallback (2048 samples, 512 samples) is
substituted; otherwise the computed values are kept. -/
theorem framing_fallback (cfg : AudioAnalyzerConfig) (sr : ℕ) :
    (qtrunc (cfg.frame_length_ms / 1000 * (sr : ℚ)) = 0 ∨
        qtrunc (cfg.hop_length_ms / 1000 * (sr : ℚ)) = 0 →
      framingParams cfg sr = (2048, 512))
    ∧ (qtrunc (cfg.frame_length_ms / 1000 * (sr : ℚ)) ≠ 0 ∧
        qtrunc (cfg.hop_length_ms / 1000 * (sr : ℚ)) ≠ 0 →
      framingParams cfg sr =
        (qtrunc (cfg.frame_length_ms / 1000 * (sr : ℚ)),
          qtrunc (cfg.hop_length_ms / 1000 * (sr : ℚ)))) := by
  constructor
  · intro h
    simp only [framingParams]
    rw [if_pos h]
  · intro h
    simp only [framingParams]
    rw [if_neg (not_or.mpr h)]

/-- Witness for claim C8's theorem: at the default configuration and a 30 Hz
sample rate both computed lengths truncate to zero, and the fallback pair is
substituted. -/
theorem framing_fallback_witness : framingParams defaultConfig 30 = (2048, 512) :=
  (framing_fallback defaultConfig 30).1 (Or.inr (by norm_num [qtrunc, defaultConfig]))

/-! Structural lemmas about the extraction pipeline and the classification
step. -/

lemma predict_eq (env : AudioEnv) (cfg : AudioAnalyzerConfig) :
    predict_gender_with_clarity_check env cfg =
      classifyStep cfg (extract_features_with_clarity env cfg) := rfl

lemma extract_loaded_eq (env : AudioEnv) (cfg : AudioAnalyzerConfig) (ysize sr : ℕ)
    (h : env.load = LoadOutcome.loaded ysize sr) (hn : ysize ≠ 0) :
    extract_features_with_clarity env cfg = extractLoaded env cfg sr := by
  unfold extract_features_with_clarity
  rw [h]
  simp [hn]

lemma extractLoaded_avg_pitch (env : AudioEnv) (cfg : AudioAnalyzerConfig) (sr : ℕ) :
    (extractLoaded env cfg sr).avg_pitch = some (avgPitchOf env.pyin) := rfl

lemma extractLoaded_message (env : AudioEnv) (cfg : AudioAnalyzerConfig) (sr : ℕ) :
    (extractLoaded env cfg sr).clarity_message =
      clarityMessageOf (clarityReasons (snrOut env cfg sr).1 (snrOut env cfg sr).2
        (avgPitchOf env.pyin) cfg) := rfl

lemma extractLoaded_snr (env : AudioEnv) (cfg : AudioAnalyzerConfig) (sr : ℕ) :
    (extractLoaded env cfg sr).snr_db = some (snrOut env cfg sr).1 := rfl

lemma extractLoaded_energy (env : AudioEnv) (cfg : AudioAnalyzerConfig) (sr : ℕ) :
    (extractLoaded env cfg sr).total_energy = some (snrOut env cfg sr).2 := rfl

lemma extract_avg_some (env : AudioEnv) (cfg : AudioAnalyzerConfig) (p : ℚ)
    (h : (extract_features_with_clarity env cfg).avg_pitch = some p) :
    ∃ ysize sr : ℕ, env.load = LoadOutcome.loaded ysize sr ∧ ysize ≠ 0 ∧
      extract_features_with_clarity env cfg = extractLoaded env cfg sr ∧
      p = avgPitchOf env.pyin := by
  cases henv : env.load with
  | fileNotFound =>
    unfold extract_features_with_clarity at h
    rw [henv] at h
    simp at h
  | decodeFailed e =>
    unfold extract_features_with_clarity at h
    rw [henv] at h
    simp at h
  | loaded ysize sr =>
    by_cases hz : ysize = 0
    · unfold extract_features_with_clarity at h
      rw [henv] at h
      simp [hz] at h
    · have heq := extract_loaded_eq env cfg ysize sr henv hz
      refine ⟨ysize, sr, rfl, hz, heq, ?_⟩
      rw [heq, extractLoaded_avg_pitch] at h
      exact (Option.some.inj h).symm

lemma classifyStep_none (cfg : AudioAnalyzerConfig) (r : ExtractResult)
    (h : r.avg_pitch = none) : classifyStep cfg r = (r.clarity_message, none) := by
  simp only [classifyStep, h]

lemma classifyStep_unclear (cfg : AudioAnalyzerConfig) (r : ExtractResult) (p : ℚ)
    (h : r.avg_pitch = some p) (hm : r.clarity_message ≠ "voice clear") :
    classifyStep cfg r = (r.clarity_message, none) := by
  simp only [classifyStep, h]
  rw [if_pos hm]

lemma classifyStep_clear (cfg : AudioAnalyzerConfig) (r : ExtractResult) (p : ℚ)
    (h : r.avg_pitch = some p) (hm : r.clarity_message = "voice clear") (hp : p ≠ 0) :
    classifyStep cfg r =
      if cfg.gender_female_pitch_threshold < p then ("Female", some p) else ("Male", some p) := by
  simp only [classifyStep, h]
  rw [if_neg (by simp [hm]), if_neg hp]

lemma clarityReasons_negInf_zero (p : ℚ) :
    clarityReasons PyFloat.negInf 0 p defaultConfig =
      [ClarityReason.highBackgroundNoise PyFloat.negInf, ClarityReason.tooLowVolume 0] := by
  rw [clarityReasons_split,
    if_pos (show PyFloat.negInf.ltQ defaultConfig.min_snr_threshold_db from trivial),
    if_pos (by norm_num [defaultConfig]),
    if_neg (fun hc => hc.2.1 trivial)]
  rfl

/-- Claim C3: whenever extraction succeeded but the clarity verdict is not
"voice clear", the orchestrator returns the joined-reasons message with no
pitch value and performs no gender classification. -/
theorem unclear_blocks_classification (env : AudioEnv) (cfg : AudioAnalyzerConfig) (p : ℚ)
    (hp : (extract_features_with_clarity env cfg).avg_pitch = some p)
    (hm : (extract_features_with_clarity env cfg).clarity_message ≠ "voice clear") :
    predict_gender_with_clarity_check env cfg =
        ((extract_features_with_clarity env cfg).clarity_message, none)
      ∧ (extract_features_with_clarity env cfg).clarity_message ≠ "Male"
      ∧ (extract_features_with_clarity env cfg).clarity_message ≠ "Female" := by
  obtain ⟨ys, sr, henv, hz, heq, hp'⟩ := extract_avg_some env cfg p hp
  refine ⟨by rw [predict_eq]; exact classifyStep_unclear cfg _ p hp hm, ?_, ?_⟩
  · rw [heq, extractLoaded_message]
    rw [heq, extractLoaded_message] at hm
    cases hR : clarityReasons (snrOut env cfg sr).1 (snrOut env cfg sr).2
        (avgPitchOf env.pyin) cfg with
    | nil => rw [hR] at hm; exact absurd rfl hm
    | cons a l =>
      simp only [clarityMessageOf]
      exact vnc_ne _ _ (by decide)
  · rw [heq, extractLoaded_message]
    rw [heq, extractLoaded_message] at hm
    cases hR : clarityReasons (snrOut env cfg sr).1 (snrOut env cfg sr).2
        (avgPitchOf env.pyin) cfg with
    | nil => rw [hR] at hm; exact absurd rfl hm
    | cons a l =>
      simp only [clarityMessageOf]
      exact vnc_ne _ _ (by decide)

lemma avgPitch_envUnclear : avgPitchOf envUnclear.pyin = 200 := by
  simp [envUnclear, avgPitchOf, validPitchList, qmean]

lemma extract_envUnclear :
    extract_features_with_clarity envUnclear defaultConfig =
      ⟨some 200, "Voice not clear: High background noise, Too low volume or silence",
        some PyFloat.negInf, some 0⟩ := by
  rw [extract_loaded_eq envUnclear defaultConfig 1 1000 rfl (by norm_num)]
  have hs : snrOut envUnclear defaultConfig 1000 = (PyFloat.negInf, 0) := rfl
  unfold extractLoaded
  rw [hs, avgPitch_envUnclear]
  rw [show ((PyFloat.negInf, (0 : ℚ)).1) = PyFloat.negInf from rfl,
    show ((PyFloat.negInf, (0 : ℚ)).2) = (0 : ℚ) from rfl]
  rw [clarityReasons_negInf_zero]
  rfl

/-- Witness for claim C3's theorem: a concrete environment with a positive,
well-defined 200 Hz pitch whose RMS stage raised, so the clarity verdict is
unclear and the orchestrator returns the reasons message with no pitch. -/
theorem unclear_blocks_classification_witness :
    predict_gender_with_clarity_check envUnclear defaultConfig =
      ("Voice not clear: High background noise, Too low volume or silence", none) := by
  have h := unclear_blocks_classification envUnclear defaultConfig 200
    (by rw [extract_envUnclear]) (by rw [extract_envUnclear]; decide)
  rw [h.1, extract_envUnclear]

/-- Claim C5: if the frame-energy sequence comes back empty, the SNR is
negative infinity and the mean energy 0.0, no error is raised, and the
pipeline proceeds to the clarity classifier with exactly those values. -/
theorem empty_energy_defaults (env : AudioEnv) (cfg : AudioAnalyzerConfig) (ysize sr : ℕ)
    (h : env.load = LoadOutcome.loaded ysize sr) (hn : ysize ≠ 0)
    (hrms : env.rms (framingParams cfg sr).1 (framingParams cfg sr).2 = Except.ok []) :
    extract_features_with_clarity env cfg =
      ⟨some (avgPitchOf env.pyin),
        clarityMessageOf (clarityReasons PyFloat.negInf 0 (avgPitchOf env.pyin) cfg),
        some PyFloat.negInf, some 0⟩ := by
  rw [extract_loaded_eq env cfg ysize sr h hn]
  have hs : snrOut env cfg sr = (PyFloat.negInf, 0) := by
    unfold snrOut
    rw [hrms]
    rfl
  unfold extractLoaded
  rw [hs]

/-- Witness for claim C5's theorem: a concrete environment whose RMS call
returns an empty sequence; the clarity classifier then sees SNR negative
infinity and zero energy and reports noise and volume reasons. -/
theorem empty_energy_defaults_witness :
    extract_features_with_clarity envEmptyRms defaultConfig =
      ⟨some 0, "Voice not clear: High background noise, Too low volume or silence",
        some PyFloat.negInf, some 0⟩ := by
  have h := empty_energy_defaults envEmptyRms defaultConfig 1 1000 rfl (by norm_num) rfl
  rw [h]
  rw [show avgPitchOf envEmptyRms.pyin = 0 from rfl, clarityReasons_negInf_zero]
  rfl

/-- Claim C7: for a successfully loaded input, an exception in the pitch
stage yields average pitch 0.0, an exception in the SNR/energy stage yields
SNR negative infinity and mean energy 0.0, and in every case the pipeline
still returns a fully populated typed quadruple. -/
theorem stage_failure_degrades (env : AudioEnv) (cfg : AudioAnalyzerConfig) (ysize sr : ℕ)
    (h : env.load = LoadOutcome.loaded ysize sr) (hn : ysize ≠ 0) :
    (env.pyin = Except.error () → (extract_features_with_clarity env cfg).avg_pitch = some 0)
    ∧ (env.rms (framingParams cfg sr).1 (framingParams cfg sr).2 = Except.error () →
        (extract_features_with_clarity env cfg).snr_db = some PyFloat.negInf
        ∧ (extract_features_with_clarity env cfg).total_energy = some 0)
    ∧ ∃ (p : ℚ) (m : String) (s : PyFloat) (t : ℚ),
        extract_features_with_clarity env cfg = ⟨some p, m, some s, some t⟩ := by
  rw [extract_loaded_eq env cfg ysize sr h hn]
  refine ⟨?_, ?_, ?_⟩
  · intro hpy
    rw [extractLoaded_avg_pitch, hpy]
    rfl
  · intro hrms
    have hs : snrOut env cfg sr = (PyFloat.negInf, 0) := by
      unfold snrOut
      rw [hrms]
      rfl
    rw [extractLoaded_snr, extractLoaded_energy, hs]
    exact ⟨rfl, rfl⟩
  · exact ⟨_, _, _, _, rfl⟩

/-- Witness for claim C7's theorem: a concrete environment in which both the
pitch stage and the RMS stage raise; the pipeline still produces the typed
quadruple with pitch 0.0, SNR negative infinity and energy 0.0. -/
theorem stage_failure_degrades_witness :
    (extract_features_with_clarity envBothFail defaultConfig).avg_pitch = some 0
    ∧ (extract_features_with_clarity envBothFail defaultConfig).snr_db = some PyFloat.negInf
    ∧ (extract_features_with_clarity envBothFail defaultConfig).total_energy = some 0 := by
  have h := stage_failure_degrades envBothFail defaultConfig 1 1000 rfl (by norm_num)
  exact ⟨h.1 rfl, (h.2.1 rfl).1, (h.2.1 rfl).2⟩

/-! Minimum-of-fold lemmas for the noise-floor fallback. -/

lemma foldl_min_mem (h : ℚ) (t : List ℚ) : t.foldl min h ∈ h :: t := by
  induction t generalizing h with
  | nil => simp
  | cons a t ih =>
    have hmem := ih (min h a)
    simp only [List.foldl_cons]
    rcases List.mem_cons.mp hmem with h1 | h1
    · rcases min_choice h a with hm | hm
      · rw [h1, hm]
        exact List.mem_cons_self h (a :: t)
      · rw [h1, hm]
        exact List.mem_cons_of_mem h (List.mem_cons_self a t)
    · exact List.mem_cons_of_mem h (List.mem_cons_of_mem a h1)

lemma foldl_min_le (h : ℚ) (t : List ℚ) : ∀ x ∈ h :: t, t.foldl min h ≤ x := by
  induction t generalizing h with
  | nil =>
    intro x hx
    simp at hx
    simp [hx]
  | cons a t ih =>
    intro x hx
    simp only [List.foldl_cons]
    rcases List.mem_cons.mp hx with rfl | hx1
    · exact le_trans (ih (min x a) (min x a) (List.mem_cons_self _ _)) (min_le_left _ _)
    · rcases List.mem_cons.mp hx1 with rfl | hx2
      · exact le_trans (ih (min h x) (min h x) (List.mem_cons_self _ _)) (min_le_right _ _)
      · exact ih (min h a) x (List.mem_cons_of_mem _ hx2)

/-- Claim C6: for a nonempty frame-energy sequence, the noise-frame count is
the floor of noise_estimation_duration_s * sample_rate / hop_length; when
zero frames fall in that leading window the noise floor is the minimum
strictly positive frame energy in the whole sequence (1e-6 when no frame
energy is positive), and otherwise it is the mean of the frames in the
window. -/
theorem noise_floor_estimation (rms : List ℚ) (cfg : AudioAnalyzerConfig) (sr : ℕ) (hl : ℤ)
    (hne : rms ≠ []) (hd : 0 ≤ cfg.noise_estimation_duration_s) (hh : 0 < hl) :
    noiseFramesCount cfg sr hl = ⌊cfg.noise_estimation_duration_s * (sr : ℚ) / (hl : ℚ)⌋
    ∧ (pySliceTo rms (noiseFramesCount cfg sr hl) = [] →
        ((∃ x ∈ rms, 0 < x) →
          noiseEnergyOf rms (noiseFramesCount cfg sr hl) ∈ rms
          ∧ 0 < noiseEnergyOf rms (noiseFramesCount cfg sr hl)
          ∧ ∀ x ∈ rms, 0 < x → noiseEnergyOf rms (noiseFramesCount cfg sr hl) ≤ x)
        ∧ ((∀ x ∈ rms, x ≤ 0) → noiseEnergyOf rms (noiseFramesCount cfg sr hl) = 1 / 1000000))
    ∧ (pySliceTo rms (noiseFramesCount cfg sr hl) ≠ [] →
        noiseEnergyOf rms (noiseFramesCount cfg sr hl) =
          (pySliceTo rms (noiseFramesCount cfg sr hl)).sum /
            ((pySliceTo rms (noiseFramesCount cfg sr hl)).length : ℚ)) := by
  refine ⟨?_, ?_, ?_⟩
  · unfold noiseFramesCount qtrunc
    rw [if_pos]
    apply div_nonneg (mul_nonneg hd (Nat.cast_nonneg sr))
    exact le_of_lt (by exact_mod_cast hh)
  · intro hw
    have base : noiseEnergyOf rms (noiseFramesCount cfg sr hl) =
        match rms.filter (fun x => decide (0 < x)) with
        | [] => 1 / 1000000
        | h :: t => t.foldl min h := by
      unfold noiseEnergyOf
      rw [hw]
    constructor
    · rintro ⟨x, hx, hxpos⟩
      cases hfil : rms.filter (fun x => decide (0 < x)) with
      | nil =>
        have : x ∈ rms.filter (fun x => decide (0 < x)) :=
          List.mem_filter.mpr ⟨hx, by simpa using hxpos⟩
        rw [hfil] at this
        simp at this
      | cons h t =>
        have hval : noiseEnergyOf rms (noiseFramesCount cfg sr hl) = t.foldl min h := by
          rw [base, hfil]
        have hmem : t.foldl min h ∈ rms.filter (fun x => decide (0 < x)) := by
          rw [hfil]
          exact foldl_min_mem h t
        have hmem' := List.mem_filter.mp hmem
        refine ⟨hval ▸ hmem'.1, hval ▸ (by simpa using hmem'.2), ?_⟩
        intro y hy hypos
        have hyf : y ∈ rms.filter (fun x => decide (0 < x)) :=
          List.mem_filter.mpr ⟨hy, by simpa using hypos⟩
        rw [hfil] at hyf
        exact hval ▸ foldl_min_le h t y hyf
    · intro hall
      have hfil : rms.filter (fun x => decide (0 < x)) = [] := by
        rw [List.filter_eq_nil_iff]
        intro a ha
        simpa using not_lt.mpr (hall a ha)
      rw [base, hfil]
  · intro hw
    cases hv : pySliceTo rms (noiseFramesCount cfg sr hl) with
    | nil => exact absurd hv hw
    | cons a l =>
      have : noiseEnergyOf rms (noiseFramesCount cfg sr hl) = qmean (a :: l) := by
        unfold noiseEnergyOf
        rw [hv]
      rw [this]
      rfl

/-- Witness for claim C6's theorem: for the two-frame sequence [2, 1] at the
default configuration, 50 Hz sample rate and 512-sample hop, the noise window
is empty and the noise floor is the minimum positive frame energy, 1. -/
theorem noise_floor_estimation_witness :
    noiseEnergyOf [2, 1] (noiseFramesCount defaultConfig 50 512) = 1 := by
  have hn : noiseFramesCount defaultConfig 50 512 = 0 := by
    norm_num [noiseFramesCount, qtrunc, defaultConfig]
  have hw : pySliceTo ([2, 1] : List ℚ) (noiseFramesCount defaultConfig 50 512) = [] := by
    rw [hn]
    simp [pySliceTo]
  have h := noise_floor_estimation [2, 1] defaultConfig 50 512 (by simp)
    (by norm_num [defaultConfig]) (by norm_num)
  obtain ⟨hmem, hpos, hle⟩ := (h.2.1 hw).1 ⟨2, by simp, by norm_num⟩
  have h1 := hle 1 (by simp) (by norm_num)
  rcases List.mem_cons.mp hmem with he | he
  · rw [he] at h1
    norm_num at h1
  · simpa using he

/-! Evaluation of the pipeline on the clarity-passing environment. -/

lemma avgPitch_envClear : avgPitchOf envClear.pyin = 200 := by
  simp [envClear, avgPitchOf, validPitchList, qmean]

lemma snrDbVal_envClear : snrDbVal (10000009 / 1000000000) (1 / 1000) = 10 := by
  unfold snrDbVal
  rw [show ((10000009 / 1000000000 + 1 / 1000000000 : ℚ) : ℝ) /
      ((1 / 1000 + 1 / 1000000000 : ℚ) : ℝ) = 10 by push_cast; norm_num]
  rw [Real.logb_self_eq_one (by norm_num)]
  norm_num

lemma framing_envClear : framingParams defaultConfig 50 = (2048, 512) := by
  norm_num [framingParams, qtrunc, defaultConfig]

lemma noise_envClear : noiseEnergyOf [1 / 1000, 1100001 / 100000000] 0 = 1 / 1000 := by
  have hw : pySliceTo ([1 / 1000, 1100001 / 100000000] : List ℚ) 0 = [] := by
    simp [pySliceTo]
  have hf : ([1 / 1000, 1100001 / 100000000] : List ℚ).filter (fun x => decide (0 < x)) =
      [1 / 1000, 1100001 / 100000000] := by
    norm_num [List.filter]
  unfold noiseEnergyOf
  rw [hw, hf]
  norm_num [List.foldl]

lemma snrStage_envClear :
    snrStage (Except.ok [1 / 1000, 1100001 / 100000000]) 50 512 defaultConfig =
      (PyFloat.fin 10, 1200001 / 200000000) := by
  show (if ([1 / 1000, 1100001 / 100000000] : List ℚ) = [] then (PyFloat.negInf, (0 : ℚ))
      else if defaultConfig.signal_energy_percentile < 0 ∨
          100 < defaultConfig.signal_energy_percentile then (PyFloat.negInf, 0)
      else (PyFloat.fin (snrDbVal
          (percentileQ [1 / 1000, 1100001 / 100000000] defaultConfig.signal_energy_percentile)
          (noiseEnergyOf [1 / 1000, 1100001 / 100000000] (noiseFramesCount defaultConfig 50 512))),
        qmean [1 / 1000, 1100001 / 100000000])) = (PyFloat.fin 10, 1200001 / 200000000)
  rw [if_neg (by simp), if_neg (by norm_num [defaultConfig])]
  rw [show noiseFramesCount defaultConfig 50 512 = 0 by
      norm_num [noiseFramesCount, qtrunc, defaultConfig]]
  rw [noise_envClear]
  rw [show percentileQ [1 / 1000, 1100001 / 100000000] defaultConfig.signal_energy_percentile =
      10000009 / 1000000000 by norm_num [percentileQ, sortQ, insertQ, List.getD, defaultConfig]]
  rw [snrDbVal_envClear]
  rw [show qmean [1 / 1000, 1100001 / 100000000] = 1200001 / 200000000 by norm_num [qmean]]

lemma clarityReasons_envClear :
    clarityReasons (PyFloat.fin 10) (1200001 / 200000000) 200 defaultConfig = [] := by
  rw [clarityReasons_split,
    if_neg (show ¬ (PyFloat.fin 10).ltQ defaultConfig.min_snr_threshold_db by
      simp only [PyFloat.ltQ, defaultConfig]
      norm_num),
    if_neg (by norm_num [defaultConfig]),
    if_neg (by norm_num)]
  rfl

lemma extract_envClear :
    extract_features_with_clarity envClear defaultConfig =
      ⟨some 200, "voice clear", some (PyFloat.fin 10), some (1200001 / 200000000)⟩ := by
  rw [extract_loaded_eq envClear defaultConfig 1 50 rfl (by norm_num)]
  have hs : snrOut envClear defaultConfig 50 = (PyFloat.fin 10, 1200001 / 200000000) := by
    unfold snrOut
    rw [framing_envClear]
    exact snrStage_envClear
  unfold extractLoaded
  rw [hs, avgPitch_envClear]
  rw [show ((PyFloat.fin 10, (1200001 / 200000000 : ℚ))).1 = PyFloat.fin 10 from rfl,
    show ((PyFloat.fin 10, (1200001 / 200000000 : ℚ))).2 = (1200001 / 200000000 : ℚ) from rfl]
  rw [clarityReasons_envClear]
  rfl

/-- Claim C1: for every clarity-passing input with positive average pitch,
the orchestrator classifies "Female" exactly when the pitch is strictly
greater than gender_female_pitch_threshold and "Male" otherwise; a pitch
exactly equal to the threshold classifies as "Male". -/
theorem gender_threshold_strict (env : AudioEnv) (cfg : AudioAnalyzerConfig) (p : ℚ)
    (hp : (extract_features_with_clarity env cfg).avg_pitch = some p)
    (hm : (extract_features_with_clarity env cfg).clarity_message = "voice clear")
    (hpos : 0 < p) :
    (predict_gender_with_clarity_check env cfg = ("Female", some p) ↔
        cfg.gender_female_pitch_threshold < p)
    ∧ (predict_gender_with_clarity_check env cfg = ("Male", some p) ↔
        p ≤ cfg.gender_female_pitch_threshold)
    ∧ (p = cfg.gender_female_pitch_threshold →
        predict_gender_with_clarity_check env cfg = ("Male", some p)) := by
  have hc := classifyStep_clear cfg _ p hp hm hpos.ne'
  rw [predict_eq, hc]
  by_cases ht : cfg.gender_female_pitch_threshold < p
  · rw [if_pos ht]
    refine ⟨⟨fun _ => ht, fun _ => rfl⟩,
      ⟨fun he => absurd (congrArg Prod.fst he) (show ("Female" : String) ≠ "Male" by decide),
        fun hle => absurd ht (not_lt.mpr hle)⟩,
      fun he => absurd (he ▸ ht) (lt_irrefl _)⟩
  · rw [if_neg ht]
    exact ⟨⟨fun he => absurd (congrArg Prod.fst he) (show ("Male" : String) ≠ "Female" by decide),
        fun hlt => absurd hlt ht⟩,
      ⟨fun _ => not_lt.mp ht, fun _ => rfl⟩, fun _ => rfl⟩

/-- Witness for claim C1's theorem: the clarity-passing environment with
average pitch 200 Hz is classified "Female" since 200 exceeds the default
threshold 165. -/
theorem gender_threshold_strict_witness :
    predict_gender_with_clarity_check envClear defaultConfig = ("Female", some 200) := by
  have h := gender_threshold_strict envClear defaultConfig 200
    (by rw [extract_envClear]) (by rw [extract_envClear]) (by norm_num)
  exact h.1.mpr (by norm_num [defaultConfig])

/-! The zero-pitch Inconclusive branch after a clear verdict, and the shape
of the orchestrator's returned pair. -/

/-- Claim C9: for every successfully loaded input, a "voice clear" verdict
forces a nonzero average pitch, so the orchestrator's zero-pitch branch
after the clarity gate is unreachable: the returned message is never
"Cannot determine gender: No clear pitch detected". -/
theorem clear_verdict_pitch_nonzero :
    (∀ (env : AudioEnv) (cfg : AudioAnalyzerConfig) (p : ℚ),
      (extract_features_with_clarity env cfg).avg_pitch = some p →
      (extract_features_with_clarity env cfg).clarity_message = "voice clear" → p ≠ 0)
    ∧ ∀ (env : AudioEnv) (cfg : AudioAnalyzerConfig),
        (predict_gender_with_clarity_check env cfg).1 ≠
          "Cannot determine gender: No clear pitch detected" := by
  have part1 : ∀ (env : AudioEnv) (cfg : AudioAnalyzerConfig) (p : ℚ),
      (extract_features_with_clarity env cfg).avg_pitch = some p →
      (extract_features_with_clarity env cfg).clarity_message = "voice clear" → p ≠ 0 := by
    intro env cfg p hp hm
    obtain ⟨ys, sr, henv, hz, heq, hpv⟩ := extract_avg_some env cfg p hp
    rw [heq, extractLoaded_message] at hm
    have hnil := (clarityMessageOf_eq_voice_clear _).mp hm
    have h3 := (clarityReasons_eq_nil_iff _ _ _ _).mp hnil
    rw [hpv]
    exact h3.2.2
  refine ⟨part1, ?_⟩
  intro env cfg
  cases henv : env.load with
  | fileNotFound =>
    have he : extract_features_with_clarity env cfg =
        ⟨none, "Error: Audio file not found.", none, none⟩ := by
      unfold extract_features_with_clarity
      rw [henv]
    rw [predict_eq, classifyStep_none cfg _ (by rw [he]), he]
    exact (show ("Error: Audio file not found." : String) ≠
      "Cannot determine gender: No clear pitch detected" by decide)
  | decodeFailed e =>
    have he : extract_features_with_clarity env cfg =
        ⟨none, "Error loading audio file: " ++ e, none, none⟩ := by
      unfold extract_features_with_clarity
      rw [henv]
    rw [predict_eq, classifyStep_none cfg _ (by rw [he]), he]
    exact err_loading_ne e _ (by decide)
  | loaded ys sr =>
    by_cases hz : ys = 0
    · have he : extract_features_with_clarity env cfg =
          ⟨none, "Error: Audio file is empty or too short.", none, none⟩ := by
        unfold extract_features_with_clarity
        rw [henv]
        simp [hz]
      rw [predict_eq, classifyStep_none cfg _ (by rw [he]), he]
      exact (show ("Error: Audio file is empty or too short." : String) ≠
        "Cannot determine gender: No clear pitch detected" by decide)
    · have heq := extract_loaded_eq env cfg ys sr henv hz
      by_cases hm : (extractLoaded env cfg sr).clarity_message ≠ "voice clear"
      · rw [predict_eq, heq, classifyStep_unclear cfg _ _ (extractLoaded_avg_pitch env cfg sr) hm]
        rw [extractLoaded_message] at hm ⊢
        cases hR : clarityReasons (snrOut env cfg sr).1 (snrOut env cfg sr).2
            (avgPitchOf env.pyin) cfg with
        | nil => rw [hR] at hm; exact absurd rfl hm
        | cons a l =>
          simp only [clarityMessageOf]
          exact vnc_ne _ _ (by decide)
      · rw [not_not] at hm
        have hnil := (clarityMessageOf_eq_voice_clear _).mp
          (by rw [← extractLoaded_message]; exact hm)
        have hp0 : avgPitchOf env.pyin ≠ 0 :=
          ((clarityReasons_eq_nil_iff _ _ _ _).mp hnil).2.2
        rw [predict_eq, heq,
          classifyStep_clear cfg _ _ (extractLoaded_avg_pitch env cfg sr) hm hp0]
        by_cases ht : cfg.gender_female_pitch_threshold < avgPitchOf env.pyin
        · rw [if_pos ht]
          exact (show ("Female" : String) ≠
            "Cannot determine gender: No clear pitch detected" by decide)
        · rw [if_neg ht]
          exact (show ("Male" : String) ≠
            "Cannot determine gender: No clear pitch detected" by decide)

/-- Witness for claim C9's theorem at the concrete clarity-passing
environment: its extracted pitch, 200 Hz, is nonzero. -/
theorem clear_verdict_pitch_nonzero_witness : (200 : ℚ) ≠ 0 :=
  clear_verdict_pitch_nonzero.1 envClear defaultConfig 200
    (by rw [extract_envClear]) (by rw [extract_envClear])

lemma none_case_inv (m : String) (P : ℚ → Prop) (hM : m ≠ "Male") (hF : m ≠ "Female") :
    (((m, (none : Option ℚ)).2 ≠ none) ↔
      ((m, (none : Option ℚ)).1 = "Male" ∨ (m, (none : Option ℚ)).1 = "Female"))
    ∧ ∀ q : ℚ, (m, (none : Option ℚ)).2 = some q → P q := by
  refine ⟨⟨fun h => absurd rfl h, fun h => ?_⟩, fun q hq => ?_⟩
  · rcases h with h | h
    · exact absurd h hM
    · exact absurd h hF
  · exact absurd hq (by simp)

lemma mem_validPitchList (pitch : List (Option ℚ)) (voiced : List Bool) (x : ℚ)
    (hx : x ∈ validPitchList pitch voiced) : some x ∈ pitch := by
  unfold validPitchList at hx
  obtain ⟨ab, hab, hf⟩ := List.mem_filterMap.mp hx
  obtain ⟨a, b⟩ := ab
  cases a with
  | none => cases b <;> simp at hf
  | some y =>
    cases b with
    | false => simp at hf
    | true =>
      simp at hf
      exact hf ▸ (List.of_mem_zip hab).1

lemma qmean_pos (l : List ℚ) (hl : l ≠ []) (hpos : ∀ x ∈ l, 0 < x) : 0 < qmean l := by
  unfold qmean
  apply div_pos (List.sum_pos l hpos hl)
  exact_mod_cast List.length_pos.mpr hl

lemma avgPitchOf_pos (r : Except Unit (List (Option ℚ) × List Bool))
    (hc : pyinPositive r) (hne : avgPitchOf r ≠ 0) : 0 < avgPitchOf r := by
  cases r with
  | error e => exact absurd rfl hne
  | ok pv =>
    simp only [avgPitchOf] at hne ⊢
    cases hv : validPitchList pv.1 pv.2 with
    | nil => rw [hv] at hne; exact absurd rfl hne
    | cons a l =>
      show 0 < qmean (a :: l)
      apply qmean_pos _ (List.cons_ne_nil a l)
      intro x hx
      exact hc x (mem_validPitchList _ _ x (hv ▸ hx))

/-- Claim C10: assuming the external pitch estimator only reports positive
pitch values, the orchestrator's returned pair carries a non-None second
component exactly when its first component is "Male" or "Female", and in
that case the second component equals the computed average pitch and is
strictly positive; on every other outcome the second component is None. -/
theorem orchestrator_pair_invariant (env : AudioEnv) (cfg : AudioAnalyzerConfig)
    (hpos : pyinPositive env.pyin) :
    ((predict_gender_with_clarity_check env cfg).2 ≠ none ↔
        ((predict_gender_with_clarity_check env cfg).1 = "Male" ∨
          (predict_gender_with_clarity_check env cfg).1 = "Female"))
    ∧ ∀ q : ℚ, (predict_gender_with_clarity_check env cfg).2 = some q →
        q = avgPitchOf env.pyin ∧ 0 < q := by
  cases henv : env.load with
  | fileNotFound =>
    have he : extract_features_with_clarity env cfg =
        ⟨none, "Error: Audio file not found.", none, none⟩ := by
      unfold extract_features_with_clarity
      rw [henv]
    rw [predict_eq, classifyStep_none cfg _ (by rw [he]), he]
    exact none_case_inv _ _ (by decide) (by decide)
  | decodeFailed e =>
    have he : extract_features_with_clarity env cfg =
        ⟨none, "Error loading audio file: " ++ e, none, none⟩ := by
      unfold extract_features_with_clarity
      rw [henv]
    rw [predict_eq, classifyStep_none cfg _ (by rw [he]), he]
    exact none_case_inv _ _ (err_loading_ne e _ (by decide)) (err_loading_ne e _ (by decide))
  | loaded ys sr =>
    by_cases hz : ys = 0
    · have he : extract_features_with_clarity env cfg =
          ⟨none, "Error: Audio file is empty or too short.", none, none⟩ := by
        unfold extract_features_with_clarity
        rw [henv]
        simp [hz]
      rw [predict_eq, classifyStep_none cfg _ (by rw [he]), he]
      exact none_case_inv _ _ (by decide) (by decide)
    · have heq := extract_loaded_eq env cfg ys sr henv hz
      by_cases hm : (extractLoaded env cfg sr).clarity_message ≠ "voice clear"
      · rw [predict_eq, heq, classifyStep_unclear cfg _ _ (extractLoaded_avg_pitch env cfg sr) hm]
        rw [extractLoaded_message] at hm ⊢
        cases hR : clarityReasons (snrOut env cfg sr).1 (snrOut env cfg sr).2
            (avgPitchOf env.pyin) cfg with
        | nil => rw [hR] at hm; exact absurd rfl hm
        | cons a l =>
          simp only [clarityMessageOf]
          exact none_case_inv _ _ (vnc_ne _ _ (by decide)) (vnc_ne _ _ (by decide))
      · rw [not_not] at hm
        have hnil := (clarityMessageOf_eq_voice_clear _).mp
          (by rw [← extractLoaded_message]; exact hm)
        have hp0 : avgPitchOf env.pyin ≠ 0 :=
          ((clarityReasons_eq_nil_iff _ _ _ _).mp hnil).2.2
        rw [predict_eq, heq,
          classifyStep_clear cfg _ _ (extractLoaded_avg_pitch env cfg sr) hm hp0]
        by_cases ht : cfg.gender_female_pitch_threshold < avgPitchOf env.pyin
        · rw [if_pos ht]
          refine ⟨⟨fun _ => Or.inr rfl, fun _ => by simp⟩, fun q hq => ?_⟩
          obtain rfl : q = avgPitchOf env.pyin := (Option.some.inj hq).symm
          exact ⟨rfl, avgPitchOf_pos env.pyin hpos hp0⟩
        · rw [if_neg ht]
          refine ⟨⟨fun _ => Or.inl rfl, fun _ => by simp⟩, fun q hq => ?_⟩
          obtain rfl : q = avgPitchOf env.pyin := (Option.some.inj hq).symm
          exact ⟨rfl, avgPitchOf_pos env.pyin hpos hp0⟩

lemma predict_envClear_eval :
    predict_gender_with_clarity_check envClear defaultConfig = ("Female", some 200) := by
  rw [predict_eq, extract_envClear,
    classifyStep_clear defaultConfig _ 200 rfl rfl (by norm_num)]
  rw [if_pos (by norm_num [defaultConfig])]

/-- Witness for claim C10's theorem at the concrete clarity-passing
environment, whose classified pitch 200 equals the computed average pitch
and is strictly positive. -/
theorem orchestrator_pair_invariant_witness :
    (200 : ℚ) = avgPitchOf envClear.pyin ∧ (0 : ℚ) < 200 := by
  have hc : pyinPositive envClear.pyin := by
    intro x hx
    simp [envClear] at hx
    rw [hx]
    norm_num
  have h := orchestrator_pair_invariant envClear defaultConfig hc
  exact h.2 200 (by rw [predict_envClear_eval])

/-! The request-facing API of src/main.py. -/

/-- Counterexample to claim C4: a request whose pipeline result is
Inconclusive is externalized by src/main.py under the "gender" key with
HTTP status 200, not under an "error" key with status 400 or 500. -/
theorem api_gender_key_counterexample :
    predict envApiInconclusive =
      (200, ApiBody.genderField
        (ClassificationResult.inconclusive "Voice not clear: High background noise")) := rfl

/-- Claim C4 as amended: src/main.py answers 400 with an "error" body only
for a missing or empty audio_url, 500 with an "error" body only when the
download or cleanup steps raise, and otherwise returns whatever the pipeline
produced - Gender, Inconclusive or LoadError alike - under the "gender" key
with HTTP 200. -/
theorem api_externalization_behavior (env : ApiEnv) :
    (env.audio_url = none → predict env = (400, ApiBody.errorField "Audio URL missing"))
    ∧ (env.audio_url = some "" → predict env = (400, ApiBody.errorField "Audio URL missing"))
    ∧ (∀ u e, env.audio_url = some u → u ≠ "" → env.fetch = Except.error e →
        predict env = (500, ApiBody.errorField e))
    ∧ (∀ u e, env.audio_url = some u → u ≠ "" → env.fetch = Except.ok () →
        env.cleanup = Except.error e → predict env = (500, ApiBody.errorField e))
    ∧ (∀ u, env.audio_url = some u → u ≠ "" → env.fetch = Except.ok () →
        env.cleanup = Except.ok () →
        predict env = (200, ApiBody.genderField env.pipeline_result)) := by
  obtain ⟨url, fetch, cleanup, res⟩ := env
  refine ⟨?_, ?_, ?_, ?_, ?_⟩
  · intro h
    have h' : url = none := h
    subst h'
    rfl
  · intro h
    have h' : url = some "" := h
    subst h'
    rfl
  · intro u e hu hne hf
    have h1 : url = some u := hu
    subst h1
    have h2 : fetch = Except.error e := hf
    subst h2
    simp only [predict]
    rw [if_neg hne]
  · intro u e hu hne hf hc
    have h1 : url = some u := hu
    subst h1
    have h2 : fetch = Except.ok () := hf
    subst h2
    have h3 : cleanup = Except.error e := hc
    subst h3
    simp only [predict]
    rw [if_neg hne]
  · intro u hu hne hf hc
    have h1 : url = some u := hu
    subst h1
    have h2 : fetch = Except.ok () := hf
    subst h2
    have h3 : cleanup = Except.ok () := hc
    subst h3
    simp only [predict]
    rw [if_neg hne]

/-- Witness for the amended claim C4's theorem: a request with no audio_url
is answered 400 with the "error" body. -/
theorem api_externalization_behavior_witness :
    predict envApiMissing = (400, ApiBody.errorField "Audio URL missing") :=
  (api_externalization_behavior envApiMissing).1 rfl
